import Mathlib

/-
  Verification development for the create-api-hook request execution engine
  (src/src/ApiInstance.ts, src/src/createApiHook.ts).

  The TypeScript code is shallowly embedded: JS values are an inductive type
  with JS truthiness, the cache is an association list mirroring the Map, and
  the executor (cache check, transport attempt, retry loop, response
  interceptors, in-flight de-duplication) is an instrumented state-passing
  function that records an event trace.  Timestamps are naturals (Date.now is
  monotone, entries are created no later than they are read).
-/

namespace CreateApiHook

/-- Subset of JS values relevant to the engine: cache payloads, params and
bodies.  `null` doubles as the "absent" result of `getCache` exactly as in the
source, where `getCache` returns `any | null` and the caller tests truthiness. -/
inductive JSVal where
  | null
  | undef
  | boolean (b : Bool)
  | number (n : Int)
  | strVal (s : String)
deriving DecidableEq

/-- JS truthiness, as used by `if (cachedData)` at ApiInstance.ts:349. -/
def truthy : JSVal → Bool
  | .null => false
  | .undef => false
  | .boolean b => b
  | .number n => n != 0
  | .strVal s => s != ""

/-- JSON.stringify as used inside the template literal of
`generateCacheKey`/`generateRequestKey` (ApiInstance.ts:198-207); an absent
field renders as the string "undefined" through the template literal. -/
def jsonStringify : JSVal → String
  | .null => "null"
  | .undef => "undefined"
  | .boolean b => if b then "true" else "false"
  | .number n => toString n
  | .strVal s => "\x22" ++ s ++ "\x22"

/-- Backoff strategy (ApiInstance.ts:23). -/
inductive Backoff where
  | linear
  | exponential
deriving DecidableEq

/-- Retry configuration (ApiInstance.ts:20-24). -/
structure RetrySpec where
  count : Nat
  delay : Nat
  backoff : Backoff
deriving DecidableEq

/-- calculateRetryDelay (ApiInstance.ts:318-323):
exponential gives baseDelay * 2^(attempt-1), linear gives baseDelay * attempt. -/
def calculateRetryDelay (attempt : Nat) (baseDelay : Nat) (backoff : Backoff) : Nat :=
  match backoff with
  | .exponential => baseDelay * 2 ^ (attempt - 1)
  | .linear => baseDelay * attempt

/-- Cached item (ApiInstance.ts:84-88). -/
structure CacheItem where
  data : JSVal
  timestamp : Nat
  ttl : Nat
deriving DecidableEq

/-- The cache Map (ApiInstance.ts:155), as an association list. -/
abbrev Cache := List (String × CacheItem)

/-- Map.delete for the cache. -/
def cacheDelete (c : Cache) (key : String) : Cache :=
  c.filter (fun p => p.1 != key)

/-- getCache (ApiInstance.ts:210-221): absent gives null; an expired entry is
deleted lazily and null is returned; otherwise the stored data is returned. -/
def getCache (c : Cache) (now : Nat) (key : String) : JSVal × Cache :=
  match c.lookup key with
  | none => (.null, c)
  | some item =>
    if now - item.timestamp > item.ttl then (.null, cacheDelete c key)
    else (item.data, c)

/-- setCache (ApiInstance.ts:224-230): Map.set overwrites the entry. -/
def setCache (c : Cache) (key : String) (data : JSVal) (ttl : Nat) (now : Nat) : Cache :=
  (key, ⟨data, now, ttl⟩) :: cacheDelete c key

/-- cleanupCache (ApiInstance.ts:233-240): drop expired entries. -/
def cleanupCache (c : Cache) (now : Nat) : Cache :=
  c.filter (fun p => !(now - p.2.timestamp > p.2.ttl))

/-- Failure shapes an execution can surface (ApiInstance.ts:403-443 and the
interceptor chains); `cancelled` is the Error thrown for an AbortError. -/
inductive ReqError where
  | network
  | httpNotOk (status : Nat)
  | cancelled
  | fromInterceptor (tag : Nat)
deriving DecidableEq

/-- The ApiResponse fields the claims observe (data and status;
statusText/headers are not inspected by any claim). -/
structure RespVal where
  data : JSVal
  status : Nat
deriving DecidableEq

/-- Effective (merged) request configuration, the output of createRequestConfig
(ApiInstance.ts:243-259): retry and cache are already resolved against the
instance defaults, and method defaults to GET there, so it is a plain string
here. -/
structure ExecConfig where
  url : String
  method : String
  params : JSVal
  data : JSVal
  cacheEnabled : Bool
  cacheTtl : Nat
  retry : RetrySpec
deriving DecidableEq

/-- generateCacheKey (ApiInstance.ts:198-201). -/
def generateCacheKey (cfg : ExecConfig) : String :=
  cfg.method ++ ":" ++ cfg.url ++ ":" ++ jsonStringify cfg.params ++ ":" ++ jsonStringify cfg.data

/-- generateRequestKey (ApiInstance.ts:204-207); textually the same formula as
generateCacheKey. -/
def generateRequestKey (cfg : ExecConfig) : String :=
  cfg.method ++ ":" ++ cfg.url ++ ":" ++ jsonStringify cfg.params ++ ":" ++ jsonStringify cfg.data

/-- A request-phase interceptor registration (ApiInstance.ts:78-81).
onFulfilled may transform the config or throw a tagged value; onRejected maps
the thrown value, and per ApiInstance.ts:272 its result is itself thrown. -/
structure ReqHandler where
  onFulfilled : ExecConfig → Except Nat ExecConfig
  onRejected : Option (Nat → Nat)

/-- A response-phase interceptor registration (ApiInstance.ts:78-81). -/
structure RespHandler where
  onFulfilled : RespVal → Except Nat RespVal
  onRejected : Option (Nat → Nat)

/-- applyRequestInterceptors (ApiInstance.ts:262-279): handlers run in order;
a throw from onFulfilled routes to the same handler's onRejected whose result
is thrown (`throw await interceptor.onRejected(error)`), aborting the chain. -/
def applyRequestInterceptors : List ReqHandler → ExecConfig → Except ReqError ExecConfig
  | [], cfg => .ok cfg
  | h :: rest, cfg =>
    match h.onFulfilled cfg with
    | .ok cfg2 => applyRequestInterceptors rest cfg2
    | .error tag =>
      match h.onRejected with
      | some f => .error (.fromInterceptor (f tag))
      | none => .error (.fromInterceptor tag)

/-- applyResponseInterceptors (ApiInstance.ts:282-299), same shape as the
request chain. -/
def applyResponseInterceptors : List RespHandler → RespVal → Except ReqError RespVal
  | [], r => .ok r
  | h :: rest, r =>
    match h.onFulfilled r with
    | .ok r2 => applyResponseInterceptors rest r2
    | .error tag =>
      match h.onRejected with
      | some f => .error (.fromInterceptor (f tag))
      | none => .error (.fromInterceptor tag)

/-- Outcome of one underlying fetch (ApiInstance.ts:395-410): network throw,
AbortError, or a response with its ok flag, status and parsed JSON body. -/
inductive FetchOutcome where
  | netErr
  | abortErr
  | resp (ok : Bool) (status : Nat) (body : JSVal)
deriving DecidableEq

/-- Whether a fetch outcome makes the attempt fail before any cache write
(throw at ApiInstance.ts:404/436/443). -/
def outcomeFails : FetchOutcome → Bool
  | .netErr => true
  | .abortErr => true
  | .resp ok _ _ => !ok

/-- The environment of one dispatch: per-transport-call oracles (indexed by
how many transport calls the instance has made so far), the interceptor
registries, and the clock.  `timeoutFires n` models the internal timeout timer
of attempt n firing (ApiInstance.ts:391); `externalAbortEvent n` models the
external signal firing its abort event while attempt n is in flight;
`externalAbortedBefore n` models the external signal being already aborted
when attempt n starts. -/
structure Env where
  fetchResult : Nat → FetchOutcome
  timeoutFires : Nat → Bool
  externalAbortedBefore : Nat → Bool
  externalAbortEvent : Nat → Bool
  reqInts : List ReqHandler
  respInts : List RespHandler
  now : Nat

/-- The observed outcome of transport attempt n, embedding the controller
wiring of ApiInstance.ts:381-398: a fresh internal AbortController is created
per attempt and an abort listener is added on the external signal.  A DOM
AbortSignal fires its abort event once, at abort time; a listener added to an
already-aborted signal never runs, so `externalAbortedBefore` does NOT abort
the internal controller and the fetch proceeds with the underlying result. -/
def attemptOutcome (env : Env) (n : Nat) : FetchOutcome :=
  if env.timeoutFires n || (!(env.externalAbortedBefore n) && env.externalAbortEvent n) then
    .abortErr
  else env.fetchResult n

/-- Observable events of one dispatch, used to state frame conditions. -/
inductive Ev where
  | cacheLookup
  | transportStart
  | cacheWrite
  | respChain
  | reqChain
  | retrySleep (ms : Nat)
  | pendingSet
  | pendingDelete
deriving DecidableEq

/-- Mutable state threaded through the executor: the cache, the number of
transport calls made so far, and the event trace. -/
structure MState where
  cache : Cache
  calls : Nat
  trace : List Ev
deriving DecidableEq

/-- The transport section of executeRequest (ApiInstance.ts:360-444): one
fetch attempt; non-ok status throws before anything else (line 404); on ok the
body is parsed, the cache is written when enabled and method is GET (lines
423-428), and only then the response interceptor chain runs (line 431). -/
def transportPhase (env : Env) (cfg : ExecConfig) (st : MState) :
    Except ReqError RespVal × MState :=
  let n := st.calls
  let st1 : MState := { st with calls := n + 1, trace := st.trace ++ [Ev.transportStart] }
  match attemptOutcome env n with
  | .abortErr => (.error .cancelled, st1)
  | .netErr => (.error .network, st1)
  | .resp ok status body =>
    if ok then
      let st2 : MState :=
        if cfg.cacheEnabled && cfg.method == "GET" then
          { st1 with
              cache := setCache st1.cache (generateCacheKey cfg) body cfg.cacheTtl env.now,
              trace := st1.trace ++ [Ev.cacheWrite] }
        else st1
      let st3 : MState := { st2 with trace := st2.trace ++ [Ev.respChain] }
      match applyResponseInterceptors env.respInts { data := body, status := status } with
      | .ok r => (.ok r, st3)
      | .error e => (.error e, st3)
    else (.error (.httpNotOk status), st1)

/-- executeRequest (ApiInstance.ts:344-445): when caching is enabled and the
method is GET, the cache is consulted first and a truthy value is returned as
a status-200 response (lines 346-358); otherwise one transport attempt runs. -/
def executeRequest (env : Env) (cfg : ExecConfig) (st : MState) :
    Except ReqError RespVal × MState :=
  if cfg.cacheEnabled && cfg.method == "GET" then
    let res := getCache st.cache env.now (generateCacheKey cfg)
    let st1 : MState := { st with cache := res.2, trace := st.trace ++ [Ev.cacheLookup] }
    if truthy res.1 then (.ok { data := res.1, status := 200 }, st1)
    else transportPhase env cfg st1
  else transportPhase env cfg st

/-- Fuel-indexed retry loop.  executeWithRetry (ApiInstance.ts:326-341)
recurses on the attempt counter with the guard `attempt <= retryConfig.count`;
the fuel argument makes that recursion structural and is always instantiated
with `count + 1 - attempt`, which keeps the fuel-exhaustion branch unreachable
(it returns the same error as exhaustion of the retry budget).  The merged
config always carries a retry spec (the constructor default at
ApiInstance.ts:169-173), so `retryConfig` at line 330 is `cfg.retry`. -/
def executeWithRetryFuel (env : Env) (cfg : ExecConfig) :
    Nat → Nat → MState → Except ReqError RespVal × MState
  | 0, _, st => executeRequest env cfg st
  | fuel + 1, attempt, st =>
    match executeRequest env cfg st with
    | (.ok r, st1) => (.ok r, st1)
    | (.error e, st1) =>
      if attempt ≤ cfg.retry.count then
        let d := calculateRetryDelay attempt cfg.retry.delay cfg.retry.backoff
        executeWithRetryFuel env cfg fuel (attempt + 1)
          { st1 with trace := st1.trace ++ [Ev.retrySleep d] }
      else (.error e, st1)

/-- executeWithRetry (ApiInstance.ts:326-341) at a given attempt number (the
initial call passes attempt = 1). -/
def executeWithRetry (env : Env) (cfg : ExecConfig) (attempt : Nat) (st : MState) :
    Except ReqError RespVal × MState :=
  executeWithRetryFuel env cfg (cfg.retry.count + 1 - attempt) attempt st

/-- Instance-level options relevant to `request` (ApiInstance.ts:160-195);
`debounce` is the in-flight de-duplication flag (default true). -/
structure InstConfig where
  debounce : Bool
deriving DecidableEq

/-- The pendingRequests Map (ApiInstance.ts:157): request key to the identity
of the shared pending promise. -/
abbrev PendingMap := List (String × Nat)

/-- Map.delete for pendingRequests. -/
def pendingDeleteKey (pm : PendingMap) (key : String) : PendingMap :=
  pm.filter (fun p => p.1 != key)

/-- What a dispatch of `request` returns: either an already-pending shared
promise (identified by its id) or a freshly executed operation. -/
inductive DispatchResult where
  | shared (id : Nat)
  | executed (id : Nat) (res : Except ReqError RespVal)

/-- State threaded through `request`: executor state plus the in-flight map. -/
structure RState where
  cache : Cache
  calls : Nat
  trace : List Ev
  pending : PendingMap

/-- request (ApiInstance.ts:448-478): sweep expired cache entries, run the
request interceptor chain (a rejection there propagates without touching the
retry loop), compute the request key from the post-interceptor config, return
the existing pending promise when de-duplication is on and the key is
in-flight, otherwise run the retried execution; with de-duplication on, the
promise is registered under the key at dispatch and removed by an
unconditional `.finally` handler at completion (success or failure alike).
`fresh` is the identity of the promise a new execution would create.  The
trace records the registration before the execution's events and the removal
after them; the claims consume only event counts and presence. -/
def request (env : Env) (inst : InstConfig) (cfg0 : ExecConfig) (fresh : Nat)
    (rst : RState) : DispatchResult × RState :=
  let cache1 := cleanupCache rst.cache env.now
  let tr1 := rst.trace ++ [Ev.reqChain]
  match applyRequestInterceptors env.reqInts cfg0 with
  | .error e => (.executed fresh (.error e), { rst with cache := cache1, trace := tr1 })
  | .ok cfg =>
    let key := generateRequestKey cfg
    match (if inst.debounce then rst.pending.lookup key else none) with
    | some id => (.shared id, { rst with cache := cache1, trace := tr1 })
    | none =>
      if inst.debounce then
        let mst : MState := ⟨cache1, rst.calls, tr1 ++ [Ev.pendingSet]⟩
        let res := executeWithRetry env cfg 1 mst
        (.executed fresh res.1,
          ⟨res.2.cache, res.2.calls, res.2.trace ++ [Ev.pendingDelete],
            pendingDeleteKey ((key, fresh) :: pendingDeleteKey rst.pending key) key⟩)
      else
        let mst : MState := ⟨cache1, rst.calls, tr1⟩
        let res := executeWithRetry env cfg 1 mst
        (.executed fresh res.1, ⟨res.2.cache, res.2.calls, res.2.trace, rst.pending⟩)

/-- interceptors.use (ApiInstance.ts:501-505, 511-515): the returned handle is
the array length at insertion time and the handler is pushed at the end.  The
element type is abstract; the claims instantiate it with tags. -/
def interceptorUse {α : Type} (l : List α) (h : α) : Nat × List α :=
  (l.length, l ++ [h])

/-- interceptors.eject (ApiInstance.ts:506-508, 516-518): `splice(id, 1)`
removes the element at position id (and removes nothing when id is past the
end). -/
def interceptorEject {α : Type} (l : List α) (id : Nat) : List α :=
  l.take id ++ l.drop (id + 1)

/-! ### Helper lemmas -/

/-- One-step equation of the fuel-indexed loop. -/
theorem executeWithRetryFuel_step (env : Env) (cfg : ExecConfig) (fuel attempt : Nat)
    (st : MState) :
    executeWithRetryFuel env cfg fuel attempt st =
      match executeRequest env cfg st with
      | (.ok r, st1) => (.ok r, st1)
      | (.error e, st1) =>
        if attempt ≤ cfg.retry.count then
          match fuel with
          | 0 => (.error e, st1)
          | fuel' + 1 =>
            executeWithRetryFuel env cfg fuel' (attempt + 1)
              { st1 with trace := st1.trace ++
                  [Ev.retrySleep (calculateRetryDelay attempt cfg.retry.delay cfg.retry.backoff)] }
        else (.error e, st1) := by
  cases fuel with
  | zero =>
    show executeRequest env cfg st = _
    rcases executeRequest env cfg st with ⟨r, st1⟩
    cases r with
    | ok v => rfl
    | error e => by_cases hle : attempt ≤ cfg.retry.count <;> simp [hle]
  | succ fuel' => rfl

/-- The fuel-indexed loop with fuel `count + 1 - attempt` satisfies exactly
the recursion of executeWithRetry at ApiInstance.ts:326-341: on failure, while
`attempt <= count`, sleep the computed backoff delay and re-enter at
`attempt + 1`; otherwise propagate the error. -/
theorem executeWithRetry_unfold (env : Env) (cfg : ExecConfig) (attempt : Nat) (st : MState) :
    executeWithRetry env cfg attempt st =
      match executeRequest env cfg st with
      | (.ok r, st1) => (.ok r, st1)
      | (.error e, st1) =>
        if attempt ≤ cfg.retry.count then
          executeWithRetry env cfg (attempt + 1)
            { st1 with trace := st1.trace ++
                [Ev.retrySleep (calculateRetryDelay attempt cfg.retry.delay cfg.retry.backoff)] }
        else (.error e, st1) := by
  simp only [executeWithRetry]
  rw [executeWithRetryFuel_step]
  rcases hreq : executeRequest env cfg st with ⟨r, st1⟩
  cases r with
  | ok v => simp
  | error e =>
    simp only
    by_cases hle : attempt ≤ cfg.retry.count
    · have h1 : cfg.retry.count + 1 - attempt = (cfg.retry.count - attempt) + 1 := by omega
      have h2 : cfg.retry.count + 1 - (attempt + 1) = cfg.retry.count - attempt := by omega
      rw [h1, h2]
    · simp [hle]

/-- One transport attempt always increments the transport-call counter by
exactly one. -/
theorem transportPhase_calls (env : Env) (cfg : ExecConfig) (st : MState) :
    (transportPhase env cfg st).2.calls = st.calls + 1 := by
  simp only [transportPhase]
  cases attemptOutcome env st.calls with
  | netErr => rfl
  | abortErr => rfl
  | resp ok status body =>
    by_cases hok : ok
    · subst hok
      simp only [if_pos rfl]
      by_cases hc : cfg.cacheEnabled && cfg.method == "GET" <;>
        cases applyResponseInterceptors env.respInts { data := body, status := status } <;>
          simp [hc]
    · simp [hok]

/-- executeRequest makes at most one transport call. -/
theorem executeRequest_calls_le (env : Env) (cfg : ExecConfig) (st : MState) :
    (executeRequest env cfg st).2.calls ≤ st.calls + 1 := by
  simp only [executeRequest]
  by_cases hc : cfg.cacheEnabled && cfg.method == "GET"
  · simp only [hc, if_pos]
    by_cases ht : truthy (getCache st.cache env.now (generateCacheKey cfg)).1
    · simp [ht]
    · simp only [ht, if_neg, Bool.false_eq_true, not_false_iff]
      rw [transportPhase_calls]
  · simp only [hc, if_neg, Bool.false_eq_true, not_false_iff]
    rw [transportPhase_calls]

/-- Whether an event is a retry-delay sleep. -/
def isRetrySleep : Ev → Bool
  | .retrySleep _ => true
  | _ => false

/-- A non-sleep event never occurs in a singleton sleep trace. -/
theorem count_retrySleep_zero (ev : Ev) (hev : isRetrySleep ev = false) (d : Nat) :
    List.count ev [Ev.retrySleep d] = 0 := by
  cases ev <;> simp_all [isRetrySleep, List.count_singleton, List.count_nil, List.count_cons]

/-- The loop with no fuel left performs the single pending attempt. -/
theorem executeWithRetryFuel_zero (env : Env) (cfg : ExecConfig) (attempt : Nat) (st : MState) :
    executeWithRetryFuel env cfg 0 attempt st = executeRequest env cfg st := rfl

/-- A successful attempt ends the loop at once. -/
theorem executeWithRetryFuel_ok (env : Env) (cfg : ExecConfig) (fuel attempt : Nat)
    (st st1 : MState) (r : RespVal) (h : executeRequest env cfg st = (.ok r, st1)) :
    executeWithRetryFuel env cfg fuel attempt st = (.ok r, st1) := by
  rw [executeWithRetryFuel_step, h]

/-- A failed attempt either sleeps and re-enters the loop or propagates. -/
theorem executeWithRetryFuel_err (env : Env) (cfg : ExecConfig) (fuel attempt : Nat)
    (st st1 : MState) (e : ReqError) (h : executeRequest env cfg st = (.error e, st1)) :
    executeWithRetryFuel env cfg (fuel + 1) attempt st =
      if attempt ≤ cfg.retry.count then
        executeWithRetryFuel env cfg fuel (attempt + 1)
          { st1 with trace := st1.trace ++
              [Ev.retrySleep (calculateRetryDelay attempt cfg.retry.delay cfg.retry.backoff)] }
      else (.error e, st1) := by
  rw [executeWithRetryFuel_step, h]

/-- Workhorse: when every executeRequest from a state with cache `c0` fails
with the same error `e`, makes exactly one transport call, appends the fixed
event block `tr` (which holds no sleep) and leaves the cache at `c0`, the
retry loop fails with `e` after `min fuel (count + 1 - attempt) + 1` attempts,
sleeping between consecutive attempts. -/
theorem retryLoopAllFail (env : Env) (cfg : ExecConfig) (e : ReqError) (c0 : Cache)
    (tr : List Ev)
    (htr : tr.countP (fun x => isRetrySleep x) = 0)
    (hstep : ∀ st : MState, st.cache = c0 →
      executeRequest env cfg st =
        (.error e, { st with calls := st.calls + 1, trace := st.trace ++ tr })) :
    ∀ fuel attempt : Nat, ∀ st : MState, st.cache = c0 →
      (executeWithRetryFuel env cfg fuel attempt st).1 = .error e
      ∧ (executeWithRetryFuel env cfg fuel attempt st).2.cache = c0
      ∧ (executeWithRetryFuel env cfg fuel attempt st).2.calls
          = st.calls + (min fuel (cfg.retry.count + 1 - attempt) + 1)
      ∧ (∀ ev : Ev, isRetrySleep ev = false →
          (executeWithRetryFuel env cfg fuel attempt st).2.trace.count ev
            = st.trace.count ev + (min fuel (cfg.retry.count + 1 - attempt) + 1) * tr.count ev)
      ∧ (executeWithRetryFuel env cfg fuel attempt st).2.trace.countP (fun x => isRetrySleep x)
          = st.trace.countP (fun x => isRetrySleep x)
            + min fuel (cfg.retry.count + 1 - attempt) := by
  intro fuel
  induction fuel with
  | zero =>
    intro attempt st hc
    rw [executeWithRetryFuel_zero, hstep st hc]
    refine ⟨rfl, hc, by simp, ?_, ?_⟩
    · intro ev _
      simp [List.count_append]
    · simp [List.countP_append, htr]
  | succ fuel ih =>
    intro attempt st hc
    rw [executeWithRetryFuel_err env cfg fuel attempt st _ e (hstep st hc)]
    by_cases hle : attempt ≤ cfg.retry.count
    · rw [if_pos hle]
      have hmin : min (fuel + 1) (cfg.retry.count + 1 - attempt)
          = min fuel (cfg.retry.count + 1 - (attempt + 1)) + 1 := by omega
      obtain ⟨r1, r2, r3, r4, r5⟩ := ih (attempt + 1)
        { cache := st.cache, calls := st.calls + 1,
          trace := (st.trace ++ tr)
            ++ [Ev.retrySleep (calculateRetryDelay attempt cfg.retry.delay cfg.retry.backoff)] }
        hc
      refine ⟨r1, r2, ?_, ?_, ?_⟩
      · rw [r3]
        simp only
        omega
      · intro ev hev
        rw [r4 ev hev]
        simp only [List.count_append, count_retrySleep_zero ev hev, hmin]
        ring
      · rw [r5]
        simp only [List.countP_append, htr, hmin]
        have hsl : List.countP (fun x => isRetrySleep x)
            [Ev.retrySleep (calculateRetryDelay attempt cfg.retry.delay cfg.retry.backoff)]
            = 1 := by simp [isRetrySleep]
        rw [hsl]
        omega
    · rw [if_neg hle]
      have hmin : min (fuel + 1) (cfg.retry.count + 1 - attempt) = 0 := by omega
      refine ⟨rfl, hc, by simp [hmin], ?_, ?_⟩
      · intro ev _
        simp [List.count_append, hmin]
      · simp [List.countP_append, htr, hmin]

/-- With caching off, an attempt whose observed outcome is a network error
fails with `network` after exactly one transport call. -/
theorem executeRequest_noCache_netErr (env : Env) (cfg : ExecConfig) (st : MState)
    (hc : cfg.cacheEnabled = false) (hf : attemptOutcome env st.calls = .netErr) :
    executeRequest env cfg st =
      (.error .network,
        { st with calls := st.calls + 1, trace := st.trace ++ [Ev.transportStart] }) := by
  simp [executeRequest, transportPhase, hc, hf]

/-- With caching off, an attempt whose observed outcome is an abort fails with
`cancelled` after exactly one transport call. -/
theorem executeRequest_noCache_abortErr (env : Env) (cfg : ExecConfig) (st : MState)
    (hc : cfg.cacheEnabled = false) (hf : attemptOutcome env st.calls = .abortErr) :
    executeRequest env cfg st =
      (.error .cancelled,
        { st with calls := st.calls + 1, trace := st.trace ++ [Ev.transportStart] }) := by
  simp [executeRequest, transportPhase, hc, hf]

/-- With caching off, an attempt whose transport succeeds but whose response
interceptor chain rejects fails with the chain's error, after one transport
call and one run of the response chain. -/
theorem executeRequest_noCache_respReject (env : Env) (cfg : ExecConfig) (st : MState)
    (status : Nat) (body : JSVal) (e : ReqError)
    (hc : cfg.cacheEnabled = false)
    (hf : attemptOutcome env st.calls = .resp true status body)
    (hint : applyResponseInterceptors env.respInts { data := body, status := status } = .error e) :
    executeRequest env cfg st =
      (.error e,
        { st with calls := st.calls + 1, trace := st.trace ++ [Ev.transportStart, Ev.respChain] }) := by
  simp [executeRequest, transportPhase, hc, hf, hint]

/-- With caching on for a GET but the cache empty, a network-failing attempt
performs the cache lookup, then the transport call, and fails; the cache stays
empty (nothing is written on failure). -/
theorem executeRequest_emptyCache_netErr (env : Env) (cfg : ExecConfig) (st : MState)
    (hc : cfg.cacheEnabled = true) (hm : cfg.method = "GET") (he : st.cache = [])
    (hf : attemptOutcome env st.calls = .netErr) :
    executeRequest env cfg st =
      (.error .network,
        { st with calls := st.calls + 1, trace := st.trace ++ [Ev.cacheLookup, Ev.transportStart] }) := by
  simp [executeRequest, transportPhase, hc, hm, he, hf, getCache, truthy]

/-- Whatever the outcomes, the loop makes at most `fuel + 1` transport calls. -/
theorem retryFuel_calls_le (env : Env) (cfg : ExecConfig) :
    ∀ fuel attempt : Nat, ∀ st : MState,
      (executeWithRetryFuel env cfg fuel attempt st).2.calls ≤ st.calls + fuel + 1 := by
  intro fuel
  induction fuel with
  | zero =>
    intro attempt st
    rw [executeWithRetryFuel_zero]
    have := executeRequest_calls_le env cfg st
    omega
  | succ fuel ih =>
    intro attempt st
    rcases hreq : executeRequest env cfg st with ⟨r, st1⟩
    have hle1 : st1.calls ≤ st.calls + 1 := by
      have := executeRequest_calls_le env cfg st
      rw [hreq] at this
      exact this
    cases r with
    | ok v =>
      rw [executeWithRetryFuel_ok env cfg (fuel + 1) attempt st st1 v hreq]
      show st1.calls ≤ st.calls + (fuel + 1) + 1
      omega
    | error e =>
      rw [executeWithRetryFuel_err env cfg fuel attempt st st1 e hreq]
      by_cases hle : attempt ≤ cfg.retry.count
      · rw [if_pos hle]
        have := ih (attempt + 1)
          { st1 with trace := st1.trace ++
              [Ev.retrySleep (calculateRetryDelay attempt cfg.retry.delay cfg.retry.backoff)] }
        simp only at this
        omega
      · rw [if_neg hle]
        show st1.calls ≤ st.calls + (fuel + 1) + 1
        omega

/-- Looking a key up after deleting it from an association map gives none. -/
theorem lookup_filter_ne {β : Type} (l : List (String × β)) (key : String) :
    (l.filter (fun p => p.1 != key)).lookup key = none := by
  induction l with
  | nil => rfl
  | cons hd tl ih =>
    by_cases h : hd.1 = key
    · simp [List.filter, h, ih]
    · have hne : (hd.1 != key) = true := by simp [h]
      have hne2 : (key == hd.1) = false := by
        simp [(Ne.symm h : key ≠ hd.1)]
      simp [List.filter, hne, List.lookup, hne2, ih]

/-- Filtering an association map with a predicate the first hit satisfies
preserves that hit. -/
theorem lookup_filter_of_lookup {β : Type} (p : String × β → Bool) (l : List (String × β))
    (key : String) (v : β) (h : l.lookup key = some v) (hp : p (key, v) = true) :
    (l.filter p).lookup key = some v := by
  induction l with
  | nil => simp [List.lookup] at h
  | cons hd tl ih =>
    rcases hd with ⟨k, w⟩
    by_cases hk : key = k
    · subst hk
      have : (key == key) = true := by simp
      rw [List.lookup] at h
      simp at h
      subst h
      simp [List.filter, hp, List.lookup]
    · have hk2 : (key == k) = false := by simp [hk]
      rw [List.lookup, hk2] at h
      simp at h
      by_cases hkeep : p (k, w) = true
      · simp [List.filter, hkeep, List.lookup, hk2, ih h]
      · simp only [Bool.not_eq_true] at hkeep
        simp [List.filter, hkeep, ih h]

/-- A transport attempt whose outcome fails never writes the cache and
surfaces an error. -/
theorem transportPhase_fail_no_write (env : Env) (cfg : ExecConfig) (st : MState)
    (hf : outcomeFails (attemptOutcome env st.calls) = true) :
    (transportPhase env cfg st).2.cache = st.cache
    ∧ (transportPhase env cfg st).2.trace.count Ev.cacheWrite = st.trace.count Ev.cacheWrite
    ∧ ∃ e : ReqError, (transportPhase env cfg st).1 = .error e := by
  simp only [transportPhase]
  cases ho : attemptOutcome env st.calls with
  | netErr => exact ⟨rfl, by simp, .network, rfl⟩
  | abortErr => exact ⟨rfl, by simp, .cancelled, rfl⟩
  | resp ok status body =>
    rw [ho] at hf
    simp only [outcomeFails, Bool.not_eq_true'] at hf
    subst hf
    exact ⟨rfl, by simp, .httpNotOk status, rfl⟩

/-- A transport attempt whose outcome is a successful response on a cache-
enabled GET writes the parsed body to the cache under the request's cache key,
whatever the response interceptor chain then does. -/
theorem transportPhase_ok_writes (env : Env) (cfg : ExecConfig) (st : MState)
    (status : Nat) (body : JSVal)
    (hc : cfg.cacheEnabled = true) (hm : cfg.method = "GET")
    (hf : attemptOutcome env st.calls = .resp true status body) :
    (transportPhase env cfg st).2.cache
      = setCache st.cache (generateCacheKey cfg) body cfg.cacheTtl env.now := by
  simp only [transportPhase, hf, hc, hm]
  cases applyResponseInterceptors env.respInts { data := body, status := status } <;> simp

/-! ### Claim theorems -/

/-- C1: for every retry spec with base delay d and every attempt number
n >= 1, the computed retry delay is d * n for linear backoff and
d * 2^(n-1) for exponential backoff; with baseDelay 1000 the exponential
delays of attempts 1, 2, 3 are 1000, 2000, 4000 ms and the linear ones are
1000, 2000, 3000 ms. -/
theorem claim1_retry_delay_formula (d n : Nat) (h : 1 ≤ n) :
    calculateRetryDelay n d .linear = d * n
    ∧ calculateRetryDelay n d .exponential = d * 2 ^ (n - 1)
    ∧ (calculateRetryDelay 1 1000 .exponential = 1000
      ∧ calculateRetryDelay 2 1000 .exponential = 2000
      ∧ calculateRetryDelay 3 1000 .exponential = 4000)
    ∧ (calculateRetryDelay 1 1000 .linear = 1000
      ∧ calculateRetryDelay 2 1000 .linear = 2000
      ∧ calculateRetryDelay 3 1000 .linear = 3000) :=
  ⟨rfl, rfl, ⟨rfl, rfl, rfl⟩, ⟨rfl, rfl, rfl⟩⟩

/-- C1 witness at attempt 3 with base delay 7. -/
theorem claim1_retry_delay_formula_witness :
    1 ≤ 3 ∧ calculateRetryDelay 3 7 .linear = 7 * 3
      ∧ calculateRetryDelay 3 7 .exponential = 7 * 2 ^ (3 - 1) :=
  ⟨by decide, (claim1_retry_delay_formula 7 3 (by decide)).1,
    (claim1_retry_delay_formula 7 3 (by decide)).2.1⟩

/-- C2: with effective retry count c, the executor performs exactly
1 + c transport attempts when every attempt fails, propagating the error only
after the (1+c)-th consecutive failure, and never performs more than 1 + c
transport attempts whatever the outcomes (c = 0 is the no-retry instance). -/
theorem claim2_retry_attempt_budget (env : Env) (cfg : ExecConfig) (st : MState)
    (hc : cfg.cacheEnabled = false)
    (hf : ∀ n, attemptOutcome env n = .netErr) :
    (executeWithRetry env cfg 1 st).1 = .error .network
    ∧ (executeWithRetry env cfg 1 st).2.calls = st.calls + (1 + cfg.retry.count)
    ∧ ∀ env2 : Env, (executeWithRetry env2 cfg 1 st).2.calls ≤ st.calls + (1 + cfg.retry.count) := by
  obtain ⟨r1, -, r3, -, -⟩ :=
    retryLoopAllFail env cfg .network st.cache [Ev.transportStart] (by simp [isRetrySleep])
      (fun st' _ => executeRequest_noCache_netErr env cfg st' hc (hf st'.calls))
      (cfg.retry.count + 1 - 1) 1 st rfl
  refine ⟨r1, ?_, ?_⟩
  · show (executeWithRetryFuel env cfg (cfg.retry.count + 1 - 1) 1 st).2.calls = _
    rw [r3]
    omega
  · intro env2
    have hb := retryFuel_calls_le env2 cfg (cfg.retry.count + 1 - 1) 1 st
    show (executeWithRetryFuel env2 cfg (cfg.retry.count + 1 - 1) 1 st).2.calls ≤ _
    omega

/-- Environment for the C2 witness: the transport always fails with a network
error, no timeout or external abort ever fires, no interceptors. -/
def envC2w : Env :=
  { fetchResult := fun _ => .netErr
    timeoutFires := fun _ => false
    externalAbortedBefore := fun _ => false
    externalAbortEvent := fun _ => false
    reqInts := []
    respInts := []
    now := 0 }

/-- Request configuration for the C2 witness: retry.count = 2, no caching. -/
def cfgC2w : ExecConfig :=
  { url := "/r", method := "POST", params := .undef, data := .undef
    cacheEnabled := false, cacheTtl := 0, retry := ⟨2, 50, .exponential⟩ }

/-- C2 witness: with retry.count = 2 and a transport that fails 3 times, the
error surfaces after exactly 3 transport calls. -/
theorem claim2_retry_attempt_budget_witness :
    cfgC2w.cacheEnabled = false
    ∧ (∀ n, attemptOutcome envC2w n = .netErr)
    ∧ (executeWithRetry envC2w cfgC2w 1 ⟨[], 0, []⟩).1 = .error .network
    ∧ (executeWithRetry envC2w cfgC2w 1 ⟨[], 0, []⟩).2.calls = 0 + (1 + cfgC2w.retry.count) :=
  ⟨rfl, fun _ => rfl,
    (claim2_retry_attempt_budget envC2w cfgC2w ⟨[], 0, []⟩ rfl (fun _ => rfl)).1,
    (claim2_retry_attempt_budget envC2w cfgC2w ⟨[], 0, []⟩ rfl (fun _ => rfl)).2.1⟩

/-- C9 (code evaluated at the failing input): interceptor handles are
positional.  Registering two handlers returns handles 0 and 1; ejecting
handle 0 leaves only the second handler (which is then invoked alone), but a
subsequent eject with handle 1 — the handle returned for that second
handler — removes nothing, because splice(1, 1) on the shifted one-element
array is out of range: the second registration can no longer be removed by
its own handle, so handles are not stable across an earlier eject. -/
theorem claim9_positional_handle_instability :
    interceptorUse ([] : List Nat) 10 = (0, [10])
    ∧ interceptorUse [10] 20 = (1, [10, 20])
    ∧ interceptorEject [10, 20] 0 = [20]
    ∧ interceptorEject (interceptorEject [10, 20] 0) 1 = [20] :=
  ⟨rfl, rfl, rfl, rfl⟩

/-- C10: a live cache entry whose stored value is falsy (0, false, null, "")
is treated as a cache miss: the executor proceeds to a fresh transport call
(exactly one transport call happens for the attempt) instead of returning the
cached value. -/
theorem claim10_falsy_cache_value_missed (env : Env) (cfg : ExecConfig) (st : MState)
    (item : CacheItem)
    (hc : cfg.cacheEnabled = true) (hm : cfg.method = "GET")
    (hlook : st.cache.lookup (generateCacheKey cfg) = some item)
    (hlive : ¬ (env.now - item.timestamp > item.ttl))
    (hfalsy : truthy item.data = false) :
    executeRequest env cfg st
      = transportPhase env cfg { st with trace := st.trace ++ [Ev.cacheLookup] }
    ∧ (executeRequest env cfg st).2.calls = st.calls + 1 := by
  have h1 : executeRequest env cfg st
      = transportPhase env cfg { st with trace := st.trace ++ [Ev.cacheLookup] } := by
    simp [executeRequest, hc, hm, getCache, hlook, hlive, hfalsy]
  refine ⟨h1, ?_⟩
  rw [h1, transportPhase_calls]

/-- Environment for the C10 witness. -/
def envC10w : Env :=
  { fetchResult := fun _ => .resp true 200 (.strVal "fresh")
    timeoutFires := fun _ => false
    externalAbortedBefore := fun _ => false
    externalAbortEvent := fun _ => false
    reqInts := []
    respInts := []
    now := 50 }

/-- Request configuration for the C10 witness: cache-enabled GET. -/
def cfgC10w : ExecConfig :=
  { url := "/z", method := "GET", params := .undef, data := .undef
    cacheEnabled := true, cacheTtl := 1000, retry := ⟨0, 100, .exponential⟩ }

/-- Cache state for the C10 witness: a live entry storing the falsy value 0
under the request's cache key. -/
def stC10w : MState :=
  ⟨[(generateCacheKey cfgC10w, ⟨.number 0, 40, 1000⟩)], 0, []⟩

/-- C10 witness: the live cached 0 is skipped and a transport call is made. -/
theorem claim10_falsy_cache_value_missed_witness :
    cfgC10w.cacheEnabled = true
    ∧ cfgC10w.method = "GET"
    ∧ stC10w.cache.lookup (generateCacheKey cfgC10w) = some ⟨.number 0, 40, 1000⟩
    ∧ ¬ (envC10w.now - 40 > 1000)
    ∧ truthy (JSVal.number 0) = false
    ∧ (executeRequest envC10w cfgC10w stC10w).2.calls = 0 + 1 :=
  ⟨rfl, rfl, rfl, by decide, rfl,
    (claim10_falsy_cache_value_missed envC10w cfgC10w stC10w ⟨.number 0, 40, 1000⟩
      rfl rfl rfl (by decide) rfl).2⟩

/-- C3: with de-duplication enabled, a second dispatch whose (post-interceptor)
request key is already in flight returns the shared pending result and issues
no new transport call; and a dispatch that does start the operation removes
the in-flight entry for its key at completion — unconditionally, whatever the
outcome, since the environment (hence every attempt outcome) is arbitrary. -/
theorem claim3_dedup_share_and_release (env : Env) (inst : InstConfig) (cfg0 cfg : ExecConfig)
    (fresh : Nat) (rst : RState)
    (hdeb : inst.debounce = true)
    (hint : applyRequestInterceptors env.reqInts cfg0 = .ok cfg) :
    (∀ i, rst.pending.lookup (generateRequestKey cfg) = some i →
      (request env inst cfg0 fresh rst).1 = .shared i
      ∧ (request env inst cfg0 fresh rst).2.calls = rst.calls)
    ∧ (rst.pending.lookup (generateRequestKey cfg) = none →
      (request env inst cfg0 fresh rst).2.pending.lookup (generateRequestKey cfg) = none) := by
  constructor
  · intro i hi
    constructor <;> simp [request, hint, hdeb, hi]
  · intro hnone
    simp only [request, hint, hdeb, hnone, if_true]
    simp [pendingDeleteKey, lookup_filter_ne]

/-- Environment for the C3 witness: outcomes are irrelevant to the shared
branch; no interceptors. -/
def envC3w : Env :=
  { fetchResult := fun _ => .netErr
    timeoutFires := fun _ => false
    externalAbortedBefore := fun _ => false
    externalAbortEvent := fun _ => false
    reqInts := []
    respInts := []
    now := 0 }

/-- Request configuration for the C3 witness. -/
def cfgC3w : ExecConfig :=
  { url := "/d", method := "GET", params := .undef, data := .undef
    cacheEnabled := false, cacheTtl := 0, retry := ⟨0, 10, .linear⟩ }

/-- In-flight state for the C3 witness: the witness key is already pending
under promise id 42. -/
def rstC3w : RState :=
  ⟨[], 7, [], [(generateRequestKey cfgC3w, 42)]⟩

/-- C3 witness: the second dispatch returns shared promise 42 with no new
transport call; a dispatch from an empty in-flight map leaves no entry for
the key once complete. -/
theorem claim3_dedup_share_and_release_witness :
    InstConfig.debounce ⟨true⟩ = true
    ∧ applyRequestInterceptors envC3w.reqInts cfgC3w = .ok cfgC3w
    ∧ rstC3w.pending.lookup (generateRequestKey cfgC3w) = some 42
    ∧ (request envC3w ⟨true⟩ cfgC3w 99 rstC3w).1 = .shared 42
    ∧ (request envC3w ⟨true⟩ cfgC3w 99 rstC3w).2.calls = rstC3w.calls
    ∧ (request envC3w ⟨true⟩ cfgC3w 99 ⟨[], 0, [], []⟩).2.pending.lookup
        (generateRequestKey cfgC3w) = none :=
  ⟨rfl, rfl, rfl,
    ((claim3_dedup_share_and_release envC3w ⟨true⟩ cfgC3w cfgC3w 99 rstC3w rfl rfl).1 42 rfl).1,
    ((claim3_dedup_share_and_release envC3w ⟨true⟩ cfgC3w cfgC3w 99 rstC3w rfl rfl).1 42 rfl).2,
    (claim3_dedup_share_and_release envC3w ⟨true⟩ cfgC3w cfgC3w 99 ⟨[], 0, [], []⟩ rfl rfl).2 rfl⟩

/-- A failing attempt outcome never appends a cacheWrite event, whichever
path executeRequest takes (a truthy cache hit also writes nothing). -/
theorem executeRequest_no_write (env : Env) (cfg : ExecConfig) (st : MState)
    (hf : outcomeFails (attemptOutcome env st.calls) = true) :
    (executeRequest env cfg st).2.trace.count Ev.cacheWrite = st.trace.count Ev.cacheWrite := by
  simp only [executeRequest]
  split
  · split
    · simp [List.count_append]
    · have hfail := (transportPhase_fail_no_write env cfg
        ⟨(getCache st.cache env.now (generateCacheKey cfg)).2, st.calls,
          st.trace ++ [Ev.cacheLookup]⟩ hf).2.1
      rw [hfail]
      simp [List.count_append]
  · exact (transportPhase_fail_no_write env cfg st hf).2.1

/-- If every attempt outcome fails, the whole retry loop never appends a
cacheWrite event. -/
theorem retryLoop_no_write (env : Env) (cfg : ExecConfig)
    (hf : ∀ n, outcomeFails (attemptOutcome env n) = true) :
    ∀ fuel attempt : Nat, ∀ st : MState,
      (executeWithRetryFuel env cfg fuel attempt st).2.trace.count Ev.cacheWrite
        = st.trace.count Ev.cacheWrite := by
  intro fuel
  induction fuel with
  | zero =>
    intro attempt st
    rw [executeWithRetryFuel_zero]
    exact executeRequest_no_write env cfg st (hf st.calls)
  | succ fuel ih =>
    intro attempt st
    rcases hreq : executeRequest env cfg st with ⟨r, st1⟩
    have hnw : st1.trace.count Ev.cacheWrite = st.trace.count Ev.cacheWrite := by
      have h0 := executeRequest_no_write env cfg st (hf st.calls)
      rw [hreq] at h0
      exact h0
    cases r with
    | ok v =>
      rw [executeWithRetryFuel_ok env cfg (fuel + 1) attempt st st1 v hreq]
      exact hnw
    | error e =>
      rw [executeWithRetryFuel_err env cfg fuel attempt st st1 e hreq]
      by_cases hle : attempt ≤ cfg.retry.count
      · rw [if_pos hle, ih (attempt + 1)]
        simp [List.count_append, hnw, count_retrySleep_zero Ev.cacheWrite rfl]
      · rw [if_neg hle]
        exact hnw

/-- Environment for the C4 counterexample: the transport succeeds with body 7
but the single response interceptor rejects with tag 9. -/
def envC4x : Env :=
  { fetchResult := fun _ => .resp true 200 (.number 7)
    timeoutFires := fun _ => false
    externalAbortedBefore := fun _ => false
    externalAbortEvent := fun _ => false
    reqInts := []
    respInts := [⟨fun _ => .error 9, none⟩]
    now := 5 }

/-- Request configuration for the C4 counterexample: cache-enabled GET, no
retries. -/
def cfgC4x : ExecConfig :=
  { url := "/u", method := "GET", params := .undef, data := .undef
    cacheEnabled := true, cacheTtl := 1000, retry := ⟨0, 100, .exponential⟩ }

/-- C4 counterexample: the execution fails (a response interceptor rejects
after a successful transport), yet the cache now holds an entry for the
request's key — the write at ApiInstance.ts:423-428 happens before the
response chain at line 431, so the store is not left unchanged. -/
theorem claim4_counterexample_reject_after_write :
    (executeWithRetry envC4x cfgC4x 1 ⟨[], 0, []⟩).1 = .error (.fromInterceptor 9)
    ∧ (executeWithRetry envC4x cfgC4x 1 ⟨[], 0, []⟩).2.cache.lookup (generateCacheKey cfgC4x)
        = some ⟨.number 7, 5, 1000⟩ :=
  ⟨rfl, rfl⟩

/-- C4 (amended): no cache entry is written by an attempt that fails at the
transport level (network error, abort, non-2xx), and a whole execution whose
attempts all fail at the transport level writes nothing; but when the
transport succeeds on a cache-enabled GET, the entry is written whatever the
response interceptor chain then does — so an execution failed by a
response-phase interceptor rejection does leave a cache entry. -/
theorem claim4_amended_no_write_on_transport_failure (cfg : ExecConfig)
    (hc : cfg.cacheEnabled = true) (hm : cfg.method = "GET") :
    (∀ (env : Env) (st : MState), outcomeFails (attemptOutcome env st.calls) = true →
      (transportPhase env cfg st).2.cache = st.cache
      ∧ ∃ e : ReqError, (transportPhase env cfg st).1 = .error e)
    ∧ (∀ (env : Env) (st : MState) (status : Nat) (body : JSVal),
        attemptOutcome env st.calls = .resp true status body →
        (transportPhase env cfg st).2.cache
          = setCache st.cache (generateCacheKey cfg) body cfg.cacheTtl env.now)
    ∧ (∀ (env : Env) (st : MState), (∀ n, outcomeFails (attemptOutcome env n) = true) →
        (executeWithRetry env cfg 1 st).2.trace.count Ev.cacheWrite
          = st.trace.count Ev.cacheWrite) := by
  refine ⟨?_, ?_, ?_⟩
  · intro env st hfail
    obtain ⟨h1, -, h3⟩ := transportPhase_fail_no_write env cfg st hfail
    exact ⟨h1, h3⟩
  · intro env st status body hok
    exact transportPhase_ok_writes env cfg st status body hc hm hok
  · intro env st hall
    exact retryLoop_no_write env cfg hall (cfg.retry.count + 1 - 1) 1 st

/-- Environment for the C4 witness: every attempt aborts. -/
def envC4w : Env :=
  { fetchResult := fun _ => .resp false 500 .null
    timeoutFires := fun _ => false
    externalAbortedBefore := fun _ => false
    externalAbortEvent := fun _ => false
    reqInts := []
    respInts := []
    now := 3 }

/-- C4 witness: at the concrete configuration the failing attempt leaves the
cache untouched, the successful attempt writes it, and an all-failing
execution appends no cacheWrite event. -/
theorem claim4_amended_no_write_on_transport_failure_witness :
    cfgC4x.cacheEnabled = true
    ∧ cfgC4x.method = "GET"
    ∧ outcomeFails (attemptOutcome envC4w 0) = true
    ∧ (transportPhase envC4w cfgC4x ⟨[], 0, []⟩).2.cache = []
    ∧ attemptOutcome envC4x 0 = .resp true 200 (.number 7)
    ∧ (transportPhase envC4x cfgC4x ⟨[], 0, []⟩).2.cache
        = setCache [] (generateCacheKey cfgC4x) (.number 7) cfgC4x.cacheTtl envC4x.now
    ∧ (executeWithRetry envC4w cfgC4x 1 ⟨[], 0, []⟩).2.trace.count Ev.cacheWrite = 0 :=
  ⟨rfl, rfl, rfl,
    ((claim4_amended_no_write_on_transport_failure cfgC4x rfl rfl).1 envC4w ⟨[], 0, []⟩ rfl).1,
    rfl,
    (claim4_amended_no_write_on_transport_failure cfgC4x rfl rfl).2.1 envC4x ⟨[], 0, []⟩ 200
      (.number 7) rfl,
    (claim4_amended_no_write_on_transport_failure cfgC4x rfl rfl).2.2 envC4w ⟨[], 0, []⟩
      (fun _ => rfl)⟩

/-- With a cache-enabled GET, an empty cache and all-network-failing
transports, the retried execution performs one cache lookup per attempt
(1 + count lookups in total) and runs no interceptor chain events. -/
theorem retryNetErr_counts (env : Env) (cfg0 : ExecConfig) (mst : MState)
    (hc : cfg0.cacheEnabled = true) (hm : cfg0.method = "GET") (hmc : mst.cache = [])
    (hf : ∀ n, attemptOutcome env n = .netErr) :
    (executeWithRetry env cfg0 1 mst).2.trace.count Ev.reqChain = mst.trace.count Ev.reqChain
    ∧ (executeWithRetry env cfg0 1 mst).2.trace.count Ev.cacheLookup
        = mst.trace.count Ev.cacheLookup + (1 + cfg0.retry.count)
    ∧ (executeWithRetry env cfg0 1 mst).2.trace.count Ev.respChain
        = mst.trace.count Ev.respChain := by
  obtain ⟨-, -, -, r4, -⟩ :=
    retryLoopAllFail env cfg0 .network [] [Ev.cacheLookup, Ev.transportStart]
      (by simp [isRetrySleep])
      (fun st' hcc => executeRequest_emptyCache_netErr env cfg0 st' hc hm hcc (hf st'.calls))
      (cfg0.retry.count + 1 - 1) 1 mst hmc
  have hmin : min (cfg0.retry.count + 1 - 1) (cfg0.retry.count + 1 - 1) + 1
      = 1 + cfg0.retry.count := by omega
  refine ⟨?_, ?_, ?_⟩
  · have h := r4 Ev.reqChain rfl
    show (executeWithRetryFuel env cfg0 (cfg0.retry.count + 1 - 1) 1 mst).2.trace.count
      Ev.reqChain = _
    rw [h]
    simp
  · have h := r4 Ev.cacheLookup rfl
    show (executeWithRetryFuel env cfg0 (cfg0.retry.count + 1 - 1) 1 mst).2.trace.count
      Ev.cacheLookup = _
    rw [h, hmin]
    simp
  · have h := r4 Ev.respChain rfl
    show (executeWithRetryFuel env cfg0 (cfg0.retry.count + 1 - 1) 1 mst).2.trace.count
      Ev.respChain = _
    rw [h]
    simp

/-- Environment for the C5 counterexample, lookup half: transport always
fails with a network error. -/
def envC5a : Env :=
  { fetchResult := fun _ => .netErr
    timeoutFires := fun _ => false
    externalAbortedBefore := fun _ => false
    externalAbortEvent := fun _ => false
    reqInts := []
    respInts := []
    now := 0 }

/-- Cache-enabled GET with retry.count = 1 for the C5 counterexample. -/
def cfgC5a : ExecConfig :=
  { url := "/p", method := "GET", params := .undef, data := .undef
    cacheEnabled := true, cacheTtl := 500, retry := ⟨1, 10, .linear⟩ }

/-- Environment for the C5 counterexample, response-chain half: transport
succeeds but the response interceptor always rejects. -/
def envC5b : Env :=
  { fetchResult := fun _ => .resp true 200 (.number 1)
    timeoutFires := fun _ => false
    externalAbortedBefore := fun _ => false
    externalAbortEvent := fun _ => false
    reqInts := []
    respInts := [⟨fun _ => .error 3, none⟩]
    now := 0 }

/-- Cache-disabled config with retry.count = 1 for the C5 counterexample. -/
def cfgC5b : ExecConfig :=
  { url := "/q", method := "GET", params := .undef, data := .undef
    cacheEnabled := false, cacheTtl := 0, retry := ⟨1, 10, .linear⟩ }

/-- C5 counterexample: in a single dispatch with one retry, the cache lookup
runs twice (once per attempt), and with a rejecting response interceptor the
response-phase chain also runs twice — they are not executed exactly once per
dispatch. -/
theorem claim5_counterexample_rerun_on_retry :
    (request envC5a ⟨true⟩ cfgC5a 0 ⟨[], 0, [], []⟩).2.trace.count Ev.cacheLookup = 2
    ∧ (request envC5b ⟨true⟩ cfgC5b 0 ⟨[], 0, [], []⟩).2.trace.count Ev.respChain = 2 :=
  ⟨rfl, rfl⟩

/-- C5 (amended): the request-phase interceptor chain runs exactly once per
dispatch (before the retry loop), but each retry attempt re-runs
executeRequest wholesale, so the cache lookup runs once per attempt
(1 + count times when every attempt fails with a network error); the
response-phase chain runs only inside attempts whose transport succeeds (here:
never). -/
theorem claim5_amended_per_attempt_rerun (env : Env) (inst : InstConfig) (cfg0 : ExecConfig)
    (fresh : Nat) (rst : RState)
    (hri : env.reqInts = [])
    (hc : cfg0.cacheEnabled = true) (hm : cfg0.method = "GET")
    (hcache : rst.cache = []) (hpend : rst.pending = [])
    (hf : ∀ n, attemptOutcome env n = .netErr) :
    (request env inst cfg0 fresh rst).2.trace.count Ev.reqChain
        = rst.trace.count Ev.reqChain + 1
    ∧ (request env inst cfg0 fresh rst).2.trace.count Ev.cacheLookup
        = rst.trace.count Ev.cacheLookup + (1 + cfg0.retry.count)
    ∧ (request env inst cfg0 fresh rst).2.trace.count Ev.respChain
        = rst.trace.count Ev.respChain := by
  have hint : applyRequestInterceptors env.reqInts cfg0 = .ok cfg0 := by rw [hri]; rfl
  have hclean : cleanupCache rst.cache env.now = [] := by rw [hcache]; rfl
  have hnone : rst.pending.lookup (generateRequestKey cfg0) = none := by rw [hpend]; rfl
  cases hdeb : inst.debounce with
  | false =>
    simp only [request, hint, hdeb, hnone, hclean, Bool.false_eq_true, if_false]
    obtain ⟨k1, k2, k3⟩ := retryNetErr_counts env cfg0
      ⟨[], rst.calls, rst.trace ++ [Ev.reqChain]⟩ hc hm rfl hf
    refine ⟨?_, ?_, ?_⟩
    · rw [k1]; simp
    · rw [k2]; simp
    · rw [k3]; simp
  | true =>
    simp only [request, hint, hdeb, hnone, hclean, if_true]
    obtain ⟨k1, k2, k3⟩ := retryNetErr_counts env cfg0
      ⟨[], rst.calls, (rst.trace ++ [Ev.reqChain]) ++ [Ev.pendingSet]⟩ hc hm rfl hf
    refine ⟨?_, ?_, ?_⟩
    · simp only [List.count_append]
      rw [k1]
      simp
    · simp only [List.count_append]
      rw [k2]
      simp
    · simp only [List.count_append]
      rw [k3]
      simp

/-- C5 witness: concrete dispatch with retry.count = 1 shows one reqChain run
and two cache lookups. -/
theorem claim5_amended_per_attempt_rerun_witness :
    envC5a.reqInts = []
    ∧ cfgC5a.cacheEnabled = true
    ∧ cfgC5a.method = "GET"
    ∧ (∀ n, attemptOutcome envC5a n = .netErr)
    ∧ (request envC5a ⟨true⟩ cfgC5a 0 ⟨[], 0, [], []⟩).2.trace.count Ev.reqChain = 0 + 1
    ∧ (request envC5a ⟨true⟩ cfgC5a 0 ⟨[], 0, [], []⟩).2.trace.count Ev.cacheLookup
        = 0 + (1 + cfgC5a.retry.count)
    ∧ (request envC5a ⟨true⟩ cfgC5a 0 ⟨[], 0, [], []⟩).2.trace.count Ev.respChain = 0 :=
  ⟨rfl, rfl, rfl, fun _ => rfl,
    (claim5_amended_per_attempt_rerun envC5a ⟨true⟩ cfgC5a 0 ⟨[], 0, [], []⟩
      rfl rfl rfl rfl rfl (fun _ => rfl)).1,
    (claim5_amended_per_attempt_rerun envC5a ⟨true⟩ cfgC5a 0 ⟨[], 0, [], []⟩
      rfl rfl rfl rfl rfl (fun _ => rfl)).2.1,
    (claim5_amended_per_attempt_rerun envC5a ⟨true⟩ cfgC5a 0 ⟨[], 0, [], []⟩
      rfl rfl rfl rfl rfl (fun _ => rfl)).2.2⟩

/-- Cache-disabled config with retry.count = 1 used by the C6 theorems. -/
def cfgC6w : ExecConfig :=
  { url := "/c", method := "GET", params := .undef, data := .undef
    cacheEnabled := false, cacheTtl := 0, retry := ⟨1, 10, .linear⟩ }

/-- Environment whose single request interceptor always rejects with tag 5. -/
def envC6w : Env :=
  { fetchResult := fun _ => .netErr
    timeoutFires := fun _ => false
    externalAbortedBefore := fun _ => false
    externalAbortEvent := fun _ => false
    reqInts := [⟨fun _ => .error 5, none⟩]
    respInts := []
    now := 0 }

/-- Environment whose transport always succeeds but whose response
interceptor always rejects with tag 3. -/
def envC6a : Env :=
  { fetchResult := fun _ => .resp true 200 (.number 1)
    timeoutFires := fun _ => false
    externalAbortedBefore := fun _ => false
    externalAbortEvent := fun _ => false
    reqInts := []
    respInts := [⟨fun _ => .error 3, none⟩]
    now := 0 }

/-- Environment in which the external cancellation signal fires during the
first attempt (aborting it) and is therefore already aborted when the second
attempt starts; the underlying transport would succeed. -/
def envC6b : Env :=
  { fetchResult := fun _ => .resp true 200 (.number 7)
    timeoutFires := fun _ => false
    externalAbortedBefore := fun n => decide (1 ≤ n)
    externalAbortEvent := fun n => n == 0
    reqInts := []
    respInts := []
    now := 0 }

/-- Environment in which every attempt is aborted (per-attempt timeout). -/
def envC6c : Env :=
  { fetchResult := fun _ => .resp true 200 (.number 7)
    timeoutFires := fun _ => true
    externalAbortedBefore := fun _ => false
    externalAbortEvent := fun _ => false
    reqInts := []
    respInts := []
    now := 0 }

/-- C6 counterexample: with retry.count = 1, a response-interceptor rejection
is retried (2 transport calls, then the interceptor error), and an explicit
cancellation that aborts the first attempt is also retried — the second
attempt even succeeds, so neither failure bypasses the retry policy. -/
theorem claim6_counterexample_retried_failures :
    (executeWithRetry envC6a cfgC6w 1 ⟨[], 0, []⟩).2.calls = 2
    ∧ (executeWithRetry envC6a cfgC6w 1 ⟨[], 0, []⟩).1 = .error (.fromInterceptor 3)
    ∧ (executeWithRetry envC6b cfgC6w 1 ⟨[], 0, []⟩).2.calls = 2
    ∧ (executeWithRetry envC6b cfgC6w 1 ⟨[], 0, []⟩).1 = .ok ⟨.number 7, 200⟩ :=
  ⟨rfl, rfl, rfl, rfl⟩

/-- C6 (amended): a request-phase interceptor rejection is never retried — it
occurs before the retry loop, so the dispatch performs no transport call and
no retry sleep and the promise rejects with that error directly; but failures
arising inside an attempt — cancellations/aborts and response-phase
interceptor rejections — pass through the generic retry loop like any other
error and are retried up to the full retry count. -/
theorem claim6_amended_only_request_phase_bypasses_retry (env : Env) (inst : InstConfig)
    (cfg0 : ExecConfig) (fresh : Nat) (rst : RState) (e : ReqError)
    (hreject : applyRequestInterceptors env.reqInts cfg0 = .error e) :
    ((request env inst cfg0 fresh rst).1 = .executed fresh (.error e)
      ∧ (request env inst cfg0 fresh rst).2.calls = rst.calls
      ∧ (request env inst cfg0 fresh rst).2.trace.countP (fun x => isRetrySleep x)
          = rst.trace.countP (fun x => isRetrySleep x)
      ∧ (request env inst cfg0 fresh rst).2.pending = rst.pending)
    ∧ (∀ (env2 : Env) (cfg : ExecConfig) (st : MState) (body : JSVal) (e2 : ReqError),
        cfg.cacheEnabled = false →
        (∀ n, attemptOutcome env2 n = .resp true 200 body) →
        applyResponseInterceptors env2.respInts ⟨body, 200⟩ = .error e2 →
        (executeWithRetry env2 cfg 1 st).2.calls = st.calls + (1 + cfg.retry.count)
        ∧ (executeWithRetry env2 cfg 1 st).1 = .error e2)
    ∧ (∀ (env3 : Env) (cfg : ExecConfig) (st : MState),
        cfg.cacheEnabled = false →
        (∀ n, attemptOutcome env3 n = .abortErr) →
        (executeWithRetry env3 cfg 1 st).2.calls = st.calls + (1 + cfg.retry.count)
        ∧ (executeWithRetry env3 cfg 1 st).1 = .error .cancelled) := by
  refine ⟨?_, ?_, ?_⟩
  · refine ⟨?_, ?_, ?_, ?_⟩ <;> simp [request, hreject, List.countP_append, isRetrySleep]
  · intro env2 cfg st body e2 hc hok hint
    obtain ⟨r1, -, r3, -, -⟩ :=
      retryLoopAllFail env2 cfg e2 st.cache [Ev.transportStart, Ev.respChain]
        (by simp [isRetrySleep])
        (fun st' _ =>
          executeRequest_noCache_respReject env2 cfg st' 200 body e2 hc (hok st'.calls) hint)
        (cfg.retry.count + 1 - 1) 1 st rfl
    constructor
    · show (executeWithRetryFuel env2 cfg (cfg.retry.count + 1 - 1) 1 st).2.calls = _
      rw [r3]
      omega
    · exact r1
  · intro env3 cfg st hc hab
    obtain ⟨r1, -, r3, -, -⟩ :=
      retryLoopAllFail env3 cfg .cancelled st.cache [Ev.transportStart]
        (by simp [isRetrySleep])
        (fun st' _ => executeRequest_noCache_abortErr env3 cfg st' hc (hab st'.calls))
        (cfg.retry.count + 1 - 1) 1 st rfl
    constructor
    · show (executeWithRetryFuel env3 cfg (cfg.retry.count + 1 - 1) 1 st).2.calls = _
      rw [r3]
      omega
    · exact r1

/-- C6 witness: a rejecting request interceptor surfaces directly with no
transport call; a rejecting response interceptor and an always-aborted
transport are each retried to the full budget at the concrete inputs. -/
theorem claim6_amended_only_request_phase_bypasses_retry_witness :
    applyRequestInterceptors envC6w.reqInts cfgC6w = .error (.fromInterceptor 5)
    ∧ (request envC6w ⟨true⟩ cfgC6w 0 ⟨[], 0, [], []⟩).1
        = .executed 0 (.error (.fromInterceptor 5))
    ∧ (request envC6w ⟨true⟩ cfgC6w 0 ⟨[], 0, [], []⟩).2.calls = 0
    ∧ cfgC6w.cacheEnabled = false
    ∧ (∀ n, attemptOutcome envC6a n = .resp true 200 (.number 1))
    ∧ applyResponseInterceptors envC6a.respInts ⟨.number 1, 200⟩ = .error (.fromInterceptor 3)
    ∧ (executeWithRetry envC6a cfgC6w 1 ⟨[], 0, []⟩).2.calls = 0 + (1 + cfgC6w.retry.count)
    ∧ (∀ n, attemptOutcome envC6c n = .abortErr)
    ∧ (executeWithRetry envC6c cfgC6w 1 ⟨[], 0, []⟩).1 = .error .cancelled :=
  ⟨rfl,
    (claim6_amended_only_request_phase_bypasses_retry envC6w ⟨true⟩ cfgC6w 0 ⟨[], 0, [], []⟩
      (.fromInterceptor 5) rfl).1.1,
    (claim6_amended_only_request_phase_bypasses_retry envC6w ⟨true⟩ cfgC6w 0 ⟨[], 0, [], []⟩
      (.fromInterceptor 5) rfl).1.2.1,
    rfl, fun _ => rfl, rfl,
    ((claim6_amended_only_request_phase_bypasses_retry envC6w ⟨true⟩ cfgC6w 0 ⟨[], 0, [], []⟩
      (.fromInterceptor 5) rfl).2.1 envC6a cfgC6w ⟨[], 0, []⟩ (.number 1) (.fromInterceptor 3)
      rfl (fun _ => rfl) rfl).1,
    fun _ => rfl,
    ((claim6_amended_only_request_phase_bypasses_retry envC6w ⟨true⟩ cfgC6w 0 ⟨[], 0, [], []⟩
      (.fromInterceptor 5) rfl).2.2 envC6c cfgC6w ⟨[], 0, []⟩ rfl (fun _ => rfl)).2⟩

/-- Environment for C7: the first attempt fails with a network error, the
external cancellation signal is aborted during the retry delay (so it is
already aborted when attempt 2 starts and its abort listener never fires),
and the underlying transport of attempt 2 would succeed. -/
def envC7x : Env :=
  { fetchResult := fun n => if n = 0 then .netErr else .resp true 200 (.number 7)
    timeoutFires := fun _ => false
    externalAbortedBefore := fun n => decide (1 ≤ n)
    externalAbortEvent := fun _ => false
    reqInts := []
    respInts := []
    now := 0 }

/-- Cache-disabled config with retry.count = 1 for C7. -/
def cfgC7x : ExecConfig :=
  { url := "/k", method := "GET", params := .undef, data := .undef
    cacheEnabled := false, cacheTtl := 0, retry := ⟨1, 1000, .exponential⟩ }

/-- C7 (code evaluated at the failing input): a request whose external signal
is cancelled while the executor waits out the retry delay still starts the
next transport attempt — the abort listener registered at ApiInstance.ts:385
is attached to an already-aborted signal and never fires, so the internal
controller is not aborted — and the execution even resolves successfully
instead of rejecting with a cancellation-derived error. -/
theorem claim7_cancel_during_delay_not_honoured :
    (executeWithRetry envC7x cfgC7x 1 ⟨[], 0, []⟩).2.calls = 2
    ∧ (executeWithRetry envC7x cfgC7x 1 ⟨[], 0, []⟩).1 = .ok ⟨.number 7, 200⟩
    ∧ (executeWithRetry envC7x cfgC7x 1 ⟨[], 0, []⟩).2.trace
        = [Ev.transportStart, Ev.retrySleep 1000, Ev.transportStart, Ev.respChain] :=
  ⟨rfl, rfl, rfl⟩

/-- The opportunistic pre-dispatch sweep keeps a live entry and keeps it as
the first match for its key. -/
theorem lookup_cleanupCache_live (c : Cache) (now : Nat) (key : String) (item : CacheItem)
    (hlook : c.lookup key = some item) (hlive : ¬ (now - item.timestamp > item.ttl)) :
    (cleanupCache c now).lookup key = some item := by
  simp only [cleanupCache]
  exact lookup_filter_of_lookup _ c key item hlook (by simp [hlive])

/-- A live truthy cache entry short-circuits executeRequest: the cached value
is returned as a 200 response and no transport call is made. -/
theorem executeRequest_cacheHit (env : Env) (cfg : ExecConfig) (st : MState) (item : CacheItem)
    (hc : cfg.cacheEnabled = true) (hm : cfg.method = "GET")
    (hlook : st.cache.lookup (generateCacheKey cfg) = some item)
    (hlive : ¬ (env.now - item.timestamp > item.ttl))
    (ht : truthy item.data = true) :
    executeRequest env cfg st
      = (.ok ⟨item.data, 200⟩, { st with trace := st.trace ++ [Ev.cacheLookup] }) := by
  simp [executeRequest, hc, hm, getCache, hlook, hlive, ht]

/-- Environment for the C8 theorems: fresh time 60, no interceptors (the
transport oracle is irrelevant on the cache-hit path). -/
def envC8x : Env :=
  { fetchResult := fun _ => .netErr
    timeoutFires := fun _ => false
    externalAbortedBefore := fun _ => false
    externalAbortEvent := fun _ => false
    reqInts := []
    respInts := []
    now := 60 }

/-- Cache-enabled GET with retry.count = 2 for C8. -/
def cfgC8x : ExecConfig :=
  { url := "/h", method := "GET", params := .undef, data := .undef
    cacheEnabled := true, cacheTtl := 0, retry := ⟨2, 10, .linear⟩ }

/-- Dispatch state for C8: a live truthy cache entry under the request's key,
nothing in flight. -/
def rstC8x : RState :=
  ⟨[(generateCacheKey cfgC8x, ⟨.strVal "v", 50, 1000⟩)], 0, [], []⟩

/-- C8 counterexample: on a cache hit with de-duplication enabled, the
dispatch returns the cached value with zero transport calls, yet the
in-flight tracker IS mutated: the dispatch registers its promise under the
request key (pendingRequests.set at ApiInstance.ts:469 runs before anything
inspects the cache-hit result) and removes it at completion. -/
theorem claim8_counterexample_tracker_mutated :
    (request envC8x ⟨true⟩ cfgC8x 3 rstC8x).1 = .executed 3 (.ok ⟨.strVal "v", 200⟩)
    ∧ (request envC8x ⟨true⟩ cfgC8x 3 rstC8x).2.calls = 0
    ∧ (request envC8x ⟨true⟩ cfgC8x 3 rstC8x).2.trace.count Ev.pendingSet = 1 :=
  ⟨rfl, rfl, rfl⟩

/-- C8 (amended): on a live truthy cache hit the dispatch returns the cached
value immediately — no transport call and no retry sleep occur — but the
dispatch still flows through the retry wrapper and, with de-duplication
enabled, the in-flight tracker is mutated: the entry is registered at
dispatch and removed at completion, leaving no trace of the key afterwards. -/
theorem claim8_amended_cache_hit_no_transport (env : Env) (inst : InstConfig)
    (cfg0 : ExecConfig) (fresh : Nat) (rst : RState) (item : CacheItem)
    (hri : env.reqInts = [])
    (hc : cfg0.cacheEnabled = true) (hm : cfg0.method = "GET")
    (hlook : rst.cache.lookup (generateCacheKey cfg0) = some item)
    (hlive : ¬ (env.now - item.timestamp > item.ttl))
    (ht : truthy item.data = true)
    (hdeb : inst.debounce = true)
    (hpnone : rst.pending.lookup (generateRequestKey cfg0) = none) :
    (request env inst cfg0 fresh rst).1 = .executed fresh (.ok ⟨item.data, 200⟩)
    ∧ (request env inst cfg0 fresh rst).2.calls = rst.calls
    ∧ (request env inst cfg0 fresh rst).2.trace.countP (fun x => isRetrySleep x)
        = rst.trace.countP (fun x => isRetrySleep x)
    ∧ (request env inst cfg0 fresh rst).2.trace.count Ev.pendingSet
        = rst.trace.count Ev.pendingSet + 1
    ∧ (request env inst cfg0 fresh rst).2.trace.count Ev.pendingDelete
        = rst.trace.count Ev.pendingDelete + 1
    ∧ (request env inst cfg0 fresh rst).2.pending.lookup (generateRequestKey cfg0) = none := by
  have hint : applyRequestInterceptors env.reqInts cfg0 = .ok cfg0 := by rw [hri]; rfl
  have hcl : (cleanupCache rst.cache env.now).lookup (generateCacheKey cfg0) = some item :=
    lookup_cleanupCache_live rst.cache env.now (generateCacheKey cfg0) item hlook hlive
  have hexec := executeRequest_cacheHit env cfg0
    ⟨cleanupCache rst.cache env.now, rst.calls, (rst.trace ++ [Ev.reqChain]) ++ [Ev.pendingSet]⟩
    item hc hm hcl hlive ht
  have hrun : executeWithRetry env cfg0 1
      ⟨cleanupCache rst.cache env.now, rst.calls, (rst.trace ++ [Ev.reqChain]) ++ [Ev.pendingSet]⟩
      = (.ok ⟨item.data, 200⟩,
          ⟨cleanupCache rst.cache env.now, rst.calls,
            ((rst.trace ++ [Ev.reqChain]) ++ [Ev.pendingSet]) ++ [Ev.cacheLookup]⟩) := by
    show executeWithRetryFuel env cfg0 (cfg0.retry.count + 1 - 1) 1 _ = _
    exact executeWithRetryFuel_ok env cfg0 (cfg0.retry.count + 1 - 1) 1 _ _ _ hexec
  simp only [request, hint, hdeb, hpnone, if_true, hrun]
  refine ⟨trivial, trivial, ?_, ?_, ?_, ?_⟩
  · simp [List.countP_append, isRetrySleep]
  · simp [List.count_append]
  · simp [List.count_append]
  · simp [pendingDeleteKey, lookup_filter_ne]

/-- C8 witness at the concrete cache-hit dispatch. -/
theorem claim8_amended_cache_hit_no_transport_witness :
    envC8x.reqInts = []
    ∧ cfgC8x.cacheEnabled = true
    ∧ cfgC8x.method = "GET"
    ∧ rstC8x.cache.lookup (generateCacheKey cfgC8x) = some ⟨.strVal "v", 50, 1000⟩
    ∧ ¬ (envC8x.now - 50 > 1000)
    ∧ truthy (JSVal.strVal "v") = true
    ∧ rstC8x.pending.lookup (generateRequestKey cfgC8x) = none
    ∧ (request envC8x ⟨true⟩ cfgC8x 3 rstC8x).1 = .executed 3 (.ok ⟨.strVal "v", 200⟩)
    ∧ (request envC8x ⟨true⟩ cfgC8x 3 rstC8x).2.calls = rstC8x.calls
    ∧ (request envC8x ⟨true⟩ cfgC8x 3 rstC8x).2.pending.lookup (generateRequestKey cfgC8x)
        = none :=
  ⟨rfl, rfl, rfl, rfl, by decide, rfl, rfl,
    (claim8_amended_cache_hit_no_transport envC8x ⟨true⟩ cfgC8x 3 rstC8x ⟨.strVal "v", 50, 1000⟩
      rfl rfl rfl rfl (by decide) rfl rfl rfl).1,
    (claim8_amended_cache_hit_no_transport envC8x ⟨true⟩ cfgC8x 3 rstC8x ⟨.strVal "v", 50, 1000⟩
      rfl rfl rfl rfl (by decide) rfl rfl rfl).2.1,
    (claim8_amended_cache_hit_no_transport envC8x ⟨true⟩ cfgC8x 3 rstC8x ⟨.strVal "v", 50, 1000⟩
      rfl rfl rfl rfl (by decide) rfl rfl rfl).2.2.2.2.2⟩

end CreateApiHook
